import Mathlib

/-!
Shallow embedding of the kubewatch-style controller in src/main.go.

Conventions:
* Go `time.Time` instants are modelled as `Int` nanoseconds since an arbitrary
  epoch; `t.Sub(u).Seconds() > 0` has the same sign as the nanosecond
  difference `t - u` (Go's `Duration.Seconds` preserves sign, and `Sub`
  saturates without changing sign), so the source comparison is embedded as
  `t - u > 0` over `Int`.
* Side effects on the external collaborators (the workqueue, the informer,
  the alert sink, logging, `utilruntime.HandleError`) are recorded as
  explicit action values returned by the embedded functions.
* `interface{}` values flowing through the informer store are modelled by
  `Option KObject` (`none` is Go `nil`); values flowing through the
  workqueue are modelled by `QueueValue`, a sum of the two Go dynamic types
  that actually occur: `string` keys (what main's callbacks enqueue) and
  `event` structs (what `processNextItem` asserts).
-/

namespace K8s

/-- Go `time.Time` instant, as integer nanoseconds. -/
abbrev Time := Int

/-- The projection of `meta_v1.ObjectMeta` that src/main.go reads:
`Name`, `Namespace`, `CreationTimestamp`. -/
structure ObjectMeta where
  name : String
  namespace_ : String
  creationTimestamp : Time
deriving Repr, DecidableEq

/-- The Go zero value of `meta_v1.ObjectMeta` (empty strings, zero time). -/
def zeroObjectMeta : ObjectMeta :=
  { name := "", namespace_ := "", creationTimestamp := 0 }

/-- The `event` struct of src/main.go (lines 42-47). -/
structure event where
  key : String
  eventType : String
  namespace_ : String
  resourceType : String
deriving Repr, DecidableEq

/-- The `k8sEvent` alert struct of src/main.go (lines 31-39). -/
structure k8sEvent where
  Namespace : String
  Kind : String
  Component : String
  Host : String
  Reason : String
  Status : String
  Name : String
deriving Repr, DecidableEq

/-- The dynamic types handled by `getObjectMetaData`'s type switch
(src/main.go lines 239-270), each carrying its `ObjectMeta`, plus an
`Unknown` case standing for every other non-nil dynamic type. -/
inductive KObject where
  | Deployment (m : ObjectMeta)
  | ReplicationController (m : ObjectMeta)
  | ReplicaSet (m : ObjectMeta)
  | DaemonSet (m : ObjectMeta)
  | Service (m : ObjectMeta)
  | Pod (m : ObjectMeta)
  | Job (m : ObjectMeta)
  | PersistentVolume (m : ObjectMeta)
  | Namespace (m : ObjectMeta)
  | Secret (m : ObjectMeta)
  | Ingress (m : ObjectMeta)
  | Node (m : ObjectMeta)
  | ClusterRole (m : ObjectMeta)
  | ServiceAccount (m : ObjectMeta)
  | Event (m : ObjectMeta)
  | Unknown
deriving Repr, DecidableEq

/-- `getObjectMetaData` (src/main.go lines 237-272): a type switch over the
fifteen supported kinds; any other value, including Go `nil` (`none` here),
falls through the switch and the named return keeps its zero value. -/
def getObjectMetaData : Option KObject → ObjectMeta
  | some (.Deployment m) => m
  | some (.ReplicationController m) => m
  | some (.ReplicaSet m) => m
  | some (.DaemonSet m) => m
  | some (.Service m) => m
  | some (.Pod m) => m
  | some (.Job m) => m
  | some (.PersistentVolume m) => m
  | some (.Namespace m) => m
  | some (.Secret m) => m
  | some (.Ingress m) => m
  | some (.Node m) => m
  | some (.ClusterRole m) => m
  | some (.ServiceAccount m) => m
  | some (.Event m) => m
  | some .Unknown => zeroObjectMeta
  | none => zeroObjectMeta

/-- `const maxRetries = 5` (src/main.go line 28). -/
def maxRetries : Nat := 5

/-- Model of Go `strings.Split(s, "/")` on the character list: split at every
separator occurrence, keeping empty segments. -/
def splitCharsAux : List Char → List Char → List (List Char)
  | [], acc => [acc.reverse]
  | c :: cs, acc =>
    if c = '/' then acc.reverse :: splitCharsAux cs []
    else splitCharsAux cs (c :: acc)

/-- Go `strings.Split(key, "/")` as used at src/main.go line 170. -/
def splitSlash (s : String) : List String :=
  (splitCharsAux s.data []).map (fun l => String.mk l)

/-- Go `strings.Contains(key, "/")` as used at src/main.go line 169. -/
def containsSlash (s : String) : Bool :=
  s.data.any (fun c => c = '/')

/-- The name/namespace resolution step of `processItem`
(src/main.go lines 169-173): when the event's namespace field is empty and
the key contains a slash, the namespace field becomes segment 0 of the split
and the key field becomes segment 1. -/
def resolveEvent (newEvent : event) : event :=
  if newEvent.namespace_ = "" ∧ containsSlash newEvent.key = true then
    { newEvent with
        namespace_ := (splitSlash newEvent.key).getD 0 ""
        key := (splitSlash newEvent.key).getD 1 "" }
  else newEvent

/-- The status switch of the create branch (src/main.go lines 181-192). -/
def createStatus (resourceType : String) : String :=
  if resourceType = "NodeNotReady" then "Danger"
  else if resourceType = "NodeReady" then "Normal"
  else if resourceType = "NodeRebooted" then "Danger"
  else if resourceType = "Backoff" then "Danger"
  else "Normal"

/-- `processItem` (src/main.go lines 156-234). Inputs that the Go method
reads from the informer store are passed explicitly: `obj` and `lookupErr`
are the object and error returned by `GetByKey(newEvent.key)` (the `exists`
boolean is discarded by the source). The result is the returned error, or on
success the alert handed to `c.eventHandler.Handle` (if any). -/
def processItem (serverStartTime : Time) (obj : Option KObject)
    (lookupErr : Option String) (newEvent0 : event) :
    Except String (Option k8sEvent) :=
  match lookupErr with
  | some e =>
    .error ("Error fetching object with key " ++ newEvent0.key ++
      " from store: " ++ e)
  | none =>
    let objectMeta := getObjectMetaData obj
    let newEvent := resolveEvent newEvent0
    if newEvent.eventType = "create" then
      if objectMeta.creationTimestamp - serverStartTime > 0 then
        .ok (some
          { Name := objectMeta.name
            Namespace := newEvent.namespace_
            Kind := newEvent.resourceType
            Status := createStatus newEvent.resourceType
            Reason := "Created"
            Component := ""
            Host := "" })
      else
        .ok none
    else if newEvent.eventType = "update" then
      .ok (some
        { Name := newEvent.key
          Namespace := newEvent.namespace_
          Kind := newEvent.resourceType
          Status := if newEvent.resourceType = "Backoff" then "Danger" else "Warning"
          Reason := "Updated"
          Component := ""
          Host := "" })
    else if newEvent.eventType = "delete" then
      .ok (some
        { Name := newEvent.key
          Namespace := newEvent.namespace_
          Kind := newEvent.resourceType
          Status := "Danger"
          Reason := "Deleted"
          Component := ""
          Host := "" })
    else
      .ok none

/-- A dynamic value held by the workqueue: main's callbacks enqueue plain
`string` keys, while `processNextItem` asserts the `event` struct type. -/
inductive QueueValue where
  | str (s : String)
  | ev (e : event)
deriving Repr, DecidableEq

/-- The Go type assertion `newEvent.(event)` (src/main.go line 139): yields
the `event` when the dynamic type matches, otherwise the assertion panics
(`none` here). -/
def assertEvent : QueueValue → Option event
  | .ev e => some e
  | .str _ => none

/-- Calls `processNextItem` makes on the workqueue and the error sink. -/
inductive QueueAction where
  | done (v : QueueValue)
  | forget (v : QueueValue)
  | addRateLimited (v : QueueValue)
  | handleError (msg : String)
deriving Repr, DecidableEq

/-- Outcome of one `processNextItem` call: the ordered queue/error-sink
calls it performs (the deferred `Done` runs last, on every exit path
including a panic), whether the type assertion panicked, and the returned
boolean (whether `runWorker` keeps looping). -/
structure WorkerStep where
  actions : List QueueAction
  panicked : Bool
  continueLoop : Bool
deriving Repr, DecidableEq

/-- `processNextItem` (src/main.go lines 131-153). `quit` and `newEvent`
are the two results of `c.queue.Get()`; `obj` and `lookupErr` are the store
lookup results consumed by `processItem`; `numRequeues` is
`c.queue.NumRequeues(newEvent)`. -/
def processNextItem (quit : Bool) (newEvent : QueueValue)
    (obj : Option KObject) (lookupErr : Option String)
    (serverStartTime : Time) (numRequeues : Nat) : WorkerStep :=
  if quit then
    { actions := [], panicked := false, continueLoop := false }
  else
    match assertEvent newEvent with
    | none =>
      -- the type assertion `newEvent.(event)` fails: panic; the deferred
      -- `Done` still runs before the panic propagates
      { actions := [.done newEvent], panicked := true, continueLoop := false }
    | some e =>
      match processItem serverStartTime obj lookupErr e with
      | .ok _ =>
        { actions := [.forget newEvent, .done newEvent]
          panicked := false, continueLoop := true }
      | .error msg =>
        if numRequeues < maxRetries then
          { actions := [.addRateLimited newEvent, .done newEvent]
            panicked := false, continueLoop := true }
        else
          { actions := [.forget newEvent, .handleError msg, .done newEvent]
            panicked := false, continueLoop := true }

/-- Body of the `AddFunc` callback registered in `main`
(src/main.go lines 82-87): given the result of
`cache.MetaNamespaceKeyFunc(obj)`, enqueue the key string when there was no
error, otherwise do nothing. -/
def addFuncActions (keyResult : Except String String) : List QueueValue :=
  match keyResult with
  | .ok key => [QueueValue.str key]
  | .error _ => []

/-- Body of the `DeleteFunc` callback registered in `main`
(src/main.go lines 88-93): given the result of
`cache.DeletionHandlingMetaNamespaceKeyFunc(obj)`, enqueue the key string
when there was no error, otherwise do nothing. -/
def deleteFuncActions (keyResult : Except String String) : List QueueValue :=
  match keyResult with
  | .ok key => [QueueValue.str key]
  | .error _ => []

/-- `cache.ResourceEventHandlerFuncs`: three nil-able callback fields; each
callback is modelled as a map from its key-computation result to the list of
values it enqueues. -/
structure ResourceEventHandlerFuncs where
  addFunc : Option (Except String String → List QueueValue)
  updateFunc : Option (Except String String → List QueueValue)
  deleteFunc : Option (Except String String → List QueueValue)

/-- The handler literal passed to `informer.AddEventHandler` in `main`
(src/main.go lines 81-94): only `AddFunc` and `DeleteFunc` are set; the
`UpdateFunc` field is left nil. -/
def mainEventHandler : ResourceEventHandlerFuncs :=
  { addFunc := some addFuncActions
    updateFunc := none
    deleteFunc := some deleteFuncActions }

/-- The observable steps of `Controller.Run`. -/
inductive RunAction where
  | logInfo (msg : String)
  | startInformer
  | handleError (msg : String)
  | runWorker
  | shutDownQueue
deriving Repr, DecidableEq

/-- `Controller.Run` (src/main.go lines 98-117), as the ordered trace of its
observable steps; `synced` is the result of
`cache.WaitForCacheSync(stopCh, c.HasSynced)`. The deferred
`c.queue.ShutDown()` runs on every return path. -/
def Run (synced : Bool) : List RunAction :=
  if synced then
    [.logInfo "Starting custom controller", .startInformer,
     .logInfo "Custom controller synced and ready", .runWorker,
     .shutDownQueue]
  else
    [.logInfo "Starting custom controller", .startInformer,
     .handleError "Timed out waiting for caches to sync", .shutDownQueue]

/-- One externally driven step during the controller's life: an informer
callback firing, or a worker pass over one dequeued value. -/
inductive StepInput where
  | callbackAdd (keyResult : Except String String)
  | callbackDelete (keyResult : Except String String)
  | workerProcess (v : QueueValue) (obj : Option KObject)
      (lookupErr : Option String) (numRequeues : Nat)

/-- State threaded through the controller's life: the startup-captured
`serverStartTime` (package variable, src/main.go line 26), the values so far
enqueued by callbacks, and the alerts so far handed to the sink. -/
structure ControllerState where
  serverStartTime : Time
  pending : List QueueValue
  alerts : List k8sEvent

/-- Alerts emitted by one `processItem` outcome. -/
def emittedAlerts : Except String (Option k8sEvent) → List k8sEvent
  | .ok (some a) => [a]
  | .ok none => []
  | .error _ => []

/-- One step of the controller's life, assembled from the embedded source
operations. No operation in src/main.go assigns `serverStartTime`, so no
case of this function changes that field; a worker pass classifies with the
state's `serverStartTime`, exactly as src/main.go line 180 reads the
package variable. -/
def stepState (s : ControllerState) : StepInput → ControllerState
  | .callbackAdd kr => { s with pending := s.pending ++ addFuncActions kr }
  | .callbackDelete kr => { s with pending := s.pending ++ deleteFuncActions kr }
  | .workerProcess v obj lookupErr _ =>
    match assertEvent v with
    | none => s
    | some e =>
      { s with alerts :=
          s.alerts ++ emittedAlerts (processItem s.serverStartTime obj lookupErr e) }

/-! Helper lemmas shared by the claim theorems. -/

theorem resolveEvent_eventType (e : event) :
    (resolveEvent e).eventType = e.eventType := by
  unfold resolveEvent; split <;> rfl

theorem resolveEvent_resourceType (e : event) :
    (resolveEvent e).resourceType = e.resourceType := by
  unfold resolveEvent; split <;> rfl

theorem stepState_serverStartTime (s : ControllerState) (i : StepInput) :
    (stepState s i).serverStartTime = s.serverStartTime := by
  cases i with
  | callbackAdd kr => rfl
  | callbackDelete kr => rfl
  | workerProcess v obj lookupErr n =>
    simp only [stepState]
    cases assertEvent v <;> rfl

theorem foldl_stepState_serverStartTime (s : ControllerState) (l : List StepInput) :
    (l.foldl stepState s).serverStartTime = s.serverStartTime := by
  induction l generalizing s with
  | nil => rfl
  | cons i t ih => rw [List.foldl_cons, ih, stepState_serverStartTime]

/-- C1: on a Create event (with a successful store fetch), `processItem`
emits an alert iff the object's creationTimestamp is strictly later than
serverStartTime; a creationTimestamp at or before serverStartTime yields no
alert and no error. -/
theorem processItem_create_alert_iff (sst : Time) (obj : Option KObject)
    (ev0 : event) (h : ev0.eventType = "create") :
    ((∃ a, processItem sst obj none ev0 = Except.ok (some a)) ↔
      (getObjectMetaData obj).creationTimestamp > sst) ∧
    ((getObjectMetaData obj).creationTimestamp ≤ sst →
      processItem sst obj none ev0 = Except.ok none) := by
  have he : (resolveEvent ev0).eventType = "create" := by
    rw [resolveEvent_eventType, h]
  have hred : processItem sst obj none ev0 =
      if (getObjectMetaData obj).creationTimestamp - sst > 0 then
        Except.ok (some
          { Name := (getObjectMetaData obj).name
            Namespace := (resolveEvent ev0).namespace_
            Kind := (resolveEvent ev0).resourceType
            Status := createStatus (resolveEvent ev0).resourceType
            Reason := "Created", Component := "", Host := "" })
      else Except.ok none := by
    simp [processItem, he]
  by_cases hc : (getObjectMetaData obj).creationTimestamp - sst > 0
  · rw [hred, if_pos hc]
    refine ⟨⟨fun _ => Int.sub_pos.mp hc, fun _ => ⟨_, rfl⟩⟩,
      fun hle => absurd hle (not_le.mpr (Int.sub_pos.mp hc))⟩
  · rw [hred, if_neg hc]
    refine ⟨⟨fun hex => ?_, fun hgt => absurd (Int.sub_pos.mpr hgt) hc⟩, fun _ => rfl⟩
    obtain ⟨a, ha⟩ := hex
    exact absurd ha (by simp)

/-- C1 witness: a pod created at time 5 against serverStartTime 3. -/
theorem processItem_create_alert_iff_witness :
    ((∃ a, processItem 3
        (some (KObject.Pod { name := "p", namespace_ := "ns", creationTimestamp := 5 })) none
        { key := "ns/p", eventType := "create", namespace_ := "", resourceType := "pod" } =
          Except.ok (some a)) ↔
      (getObjectMetaData
        (some (KObject.Pod { name := "p", namespace_ := "ns", creationTimestamp := 5 }))).creationTimestamp > 3) ∧
    ((getObjectMetaData
        (some (KObject.Pod { name := "p", namespace_ := "ns", creationTimestamp := 5 }))).creationTimestamp ≤ 3 →
      processItem 3
        (some (KObject.Pod { name := "p", namespace_ := "ns", creationTimestamp := 5 })) none
        { key := "ns/p", eventType := "create", namespace_ := "", resourceType := "pod" } =
          Except.ok none) :=
  processItem_create_alert_iff 3 _ _ rfl

/-- C2: the emitted alert's status and reason follow the fixed table:
Create (when not suppressed) has reason Created and status given by the
NodeNotReady/NodeReady/NodeRebooted/Backoff/default table; Update always
emits reason Updated with status Danger for Backoff and Warning otherwise;
Delete always emits reason Deleted with status Danger. -/
theorem processItem_classification (sst : Time) (obj : Option KObject)
    (ev0 : event) :
    (∀ a, ev0.eventType = "create" →
      processItem sst obj none ev0 = Except.ok (some a) →
      a.Reason = "Created" ∧ a.Status = createStatus ev0.resourceType) ∧
    (ev0.eventType = "update" →
      ∃ a, processItem sst obj none ev0 = Except.ok (some a) ∧
        a.Reason = "Updated" ∧
        a.Status = (if ev0.resourceType = "Backoff" then "Danger" else "Warning")) ∧
    (ev0.eventType = "delete" →
      ∃ a, processItem sst obj none ev0 = Except.ok (some a) ∧
        a.Reason = "Deleted" ∧ a.Status = "Danger") ∧
    (createStatus "NodeNotReady" = "Danger" ∧ createStatus "NodeReady" = "Normal" ∧
      createStatus "NodeRebooted" = "Danger" ∧ createStatus "Backoff" = "Danger" ∧
      ∀ rt, rt ≠ "NodeNotReady" → rt ≠ "NodeReady" → rt ≠ "NodeRebooted" →
        rt ≠ "Backoff" → createStatus rt = "Normal") := by
  have hr := resolveEvent_resourceType ev0
  refine ⟨?_, ?_, ?_, rfl, rfl, rfl, rfl, ?_⟩
  · intro a h ha
    have he : (resolveEvent ev0).eventType = "create" := by
      rw [resolveEvent_eventType, h]
    have hred : processItem sst obj none ev0 =
        if (getObjectMetaData obj).creationTimestamp - sst > 0 then
          Except.ok (some
            { Name := (getObjectMetaData obj).name
              Namespace := (resolveEvent ev0).namespace_
              Kind := (resolveEvent ev0).resourceType
              Status := createStatus (resolveEvent ev0).resourceType
              Reason := "Created", Component := "", Host := "" })
        else Except.ok none := by
      simp [processItem, he]
    rw [hred] at ha
    split at ha
    · rw [Except.ok.injEq, Option.some.injEq] at ha
      subst ha
      exact ⟨rfl, by rw [hr]⟩
    · exact absurd ha (by simp)
  · intro h
    have he : (resolveEvent ev0).eventType = "update" := by
      rw [resolveEvent_eventType, h]
    refine ⟨{ Name := (resolveEvent ev0).key
              Namespace := (resolveEvent ev0).namespace_
              Kind := ev0.resourceType
              Status := if ev0.resourceType = "Backoff" then "Danger" else "Warning"
              Reason := "Updated", Component := "", Host := "" }, ?_, rfl, rfl⟩
    simp [processItem, he, hr]
  · intro h
    have he : (resolveEvent ev0).eventType = "delete" := by
      rw [resolveEvent_eventType, h]
    refine ⟨{ Name := (resolveEvent ev0).key
              Namespace := (resolveEvent ev0).namespace_
              Kind := ev0.resourceType
              Status := "Danger"
              Reason := "Deleted", Component := "", Host := "" }, ?_, rfl, rfl⟩
    simp [processItem, he, hr]
  · intro rt h1 h2 h3 h4
    unfold createStatus
    rw [if_neg h1, if_neg h2, if_neg h3, if_neg h4]

/-- C2 witness: one create, one update and one delete instance of the
classification table, plus the default row of the status table. -/
theorem processItem_classification_witness :
    ((k8sEvent.mk "" "NodeNotReady" "" "" "Created" "Danger" "n").Reason = "Created" ∧
      (k8sEvent.mk "" "NodeNotReady" "" "" "Created" "Danger" "n").Status =
        createStatus "NodeNotReady") ∧
    (∃ a, processItem 0 none none
        { key := "k", eventType := "update", namespace_ := "", resourceType := "Backoff" } =
          Except.ok (some a) ∧
        a.Reason = "Updated" ∧
        a.Status = (if "Backoff" = "Backoff" then "Danger" else "Warning")) ∧
    (∃ a, processItem 0 none none
        { key := "k2", eventType := "delete", namespace_ := "ns", resourceType := "pod" } =
          Except.ok (some a) ∧
        a.Reason = "Deleted" ∧ a.Status = "Danger") ∧
    createStatus "pod" = "Normal" :=
  ⟨(processItem_classification 3
      (some (KObject.Node { name := "n", namespace_ := "", creationTimestamp := 5 }))
      { key := "n", eventType := "create", namespace_ := "", resourceType := "NodeNotReady" }).1
      (k8sEvent.mk "" "NodeNotReady" "" "" "Created" "Danger" "n") rfl rfl,
   (processItem_classification 0 none
      { key := "k", eventType := "update", namespace_ := "", resourceType := "Backoff" }).2.1 rfl,
   (processItem_classification 0 none
      { key := "k2", eventType := "delete", namespace_ := "ns", resourceType := "pod" }).2.2.1 rfl,
   (processItem_classification 0 none
      { key := "k", eventType := "update", namespace_ := "", resourceType := "Backoff" }).2.2.2.2.2.2.2
      "pod" (by decide) (by decide) (by decide) (by decide)⟩

/-- C3: for every dequeued item that passes the type assertion, the deferred
Done runs in every case, and exactly one of the three outcomes happens: on
success Forget; on error with fewer than maxRetries (= 5) requeues,
AddRateLimited; on error once maxRetries is reached, Forget plus surfacing
the error to the error-reporting path. -/
theorem processNextItem_retry_policy (sst : Time) (v : QueueValue) (e : event)
    (obj : Option KObject) (lookupErr : Option String) (n : Nat)
    (hv : assertEvent v = some e) :
    maxRetries = 5 ∧
    QueueAction.done v ∈ (processNextItem false v obj lookupErr sst n).actions ∧
    (∀ out, processItem sst obj lookupErr e = Except.ok out →
      (processNextItem false v obj lookupErr sst n).actions =
        [QueueAction.forget v, QueueAction.done v]) ∧
    (∀ msg, processItem sst obj lookupErr e = Except.error msg → n < maxRetries →
      (processNextItem false v obj lookupErr sst n).actions =
        [QueueAction.addRateLimited v, QueueAction.done v]) ∧
    (∀ msg, processItem sst obj lookupErr e = Except.error msg → maxRetries ≤ n →
      (processNextItem false v obj lookupErr sst n).actions =
        [QueueAction.forget v, QueueAction.handleError msg, QueueAction.done v]) := by
  have hbase : processNextItem false v obj lookupErr sst n =
      (match processItem sst obj lookupErr e with
       | .ok _ =>
         { actions := [.forget v, .done v], panicked := false, continueLoop := true }
       | .error msg =>
         if n < maxRetries then
           { actions := [.addRateLimited v, .done v]
             panicked := false, continueLoop := true }
         else
           { actions := [.forget v, .handleError msg, .done v]
             panicked := false, continueLoop := true }) := by
    simp [processNextItem, hv]
  refine ⟨rfl, ?_, ?_, ?_, ?_⟩
  · rw [hbase]
    cases hp : processItem sst obj lookupErr e with
    | ok out => simp
    | error msg =>
      by_cases hn : n < maxRetries
      · simp [hn]
      · simp [hn]
  · intro out hout
    rw [hbase, hout]
  · intro msg hmsg hn
    rw [hbase, hmsg]
    simp [hn]
  · intro msg hmsg hn
    rw [hbase, hmsg]
    simp [Nat.not_lt.mpr hn]

/-- C3 witness: a store-lookup failure on the first attempt (0 requeues)
takes the AddRateLimited branch. -/
theorem processNextItem_retry_policy_witness :
    assertEvent (QueueValue.ev
      { key := "k", eventType := "update", namespace_ := "ns", resourceType := "pod" }) =
      some { key := "k", eventType := "update", namespace_ := "ns", resourceType := "pod" } ∧
    (processNextItem false
      (QueueValue.ev { key := "k", eventType := "update", namespace_ := "ns", resourceType := "pod" })
      none (some "boom") 0 0).actions =
      [QueueAction.addRateLimited (QueueValue.ev
        { key := "k", eventType := "update", namespace_ := "ns", resourceType := "pod" }),
       QueueAction.done (QueueValue.ev
        { key := "k", eventType := "update", namespace_ := "ns", resourceType := "pod" })] :=
  ⟨rfl,
   (processNextItem_retry_policy 0
      (QueueValue.ev { key := "k", eventType := "update", namespace_ := "ns", resourceType := "pod" })
      { key := "k", eventType := "update", namespace_ := "ns", resourceType := "pod" }
      none (some "boom") 0 rfl).2.2.2.1
      "Error fetching object with key k from store: boom" rfl (by decide)⟩

/-- C4: over any sequence of controller-life steps (callbacks firing, worker
passes), `serverStartTime` keeps its startup value — no embedded source
operation assigns it — and a worker pass at any point classifies with that
one startup value. -/
theorem serverStartTime_set_once (init : ControllerState) (l : List StepInput)
    (v : QueueValue) (e : event) (obj : Option KObject)
    (lookupErr : Option String) (n : Nat) (hv : assertEvent v = some e) :
    (l.foldl stepState init).serverStartTime = init.serverStartTime ∧
    (stepState (l.foldl stepState init)
        (StepInput.workerProcess v obj lookupErr n)).alerts =
      (l.foldl stepState init).alerts ++
        emittedAlerts (processItem init.serverStartTime obj lookupErr e) := by
  refine ⟨foldl_stepState_serverStartTime init l, ?_⟩
  simp only [stepState, hv]
  rw [foldl_stepState_serverStartTime]

/-- C4 witness: after a callback step, a worker pass on a delete event still
classifies with the startup time 7. -/
theorem serverStartTime_set_once_witness :
    (([StepInput.callbackAdd (Except.ok "a/b")].foldl stepState
        { serverStartTime := 7, pending := [], alerts := [] }).serverStartTime = 7) ∧
    (stepState ([StepInput.callbackAdd (Except.ok "a/b")].foldl stepState
        { serverStartTime := 7, pending := [], alerts := [] })
      (StepInput.workerProcess
        (QueueValue.ev { key := "x", eventType := "delete", namespace_ := "", resourceType := "pod" })
        none none 0)).alerts =
      (([StepInput.callbackAdd (Except.ok "a/b")].foldl stepState
        { serverStartTime := 7, pending := [], alerts := [] }).alerts ++
        emittedAlerts (processItem 7 none none
          { key := "x", eventType := "delete", namespace_ := "", resourceType := "pod" })) :=
  serverStartTime_set_once
    { serverStartTime := 7, pending := [], alerts := [] }
    [StepInput.callbackAdd (Except.ok "a/b")]
    (QueueValue.ev { key := "x", eventType := "delete", namespace_ := "", resourceType := "pod" })
    { key := "x", eventType := "delete", namespace_ := "", resourceType := "pod" }
    none none 0 rfl

/-- C5 counterexample: `main` does not register callbacks for all three
change types — the handler literal passed to `AddEventHandler` leaves
`UpdateFunc` nil. -/
theorem mainEventHandler_not_all_three :
    ¬ (mainEventHandler.addFunc ≠ none ∧ mainEventHandler.updateFunc ≠ none ∧
       mainEventHandler.deleteFunc ≠ none) :=
  fun h => h.2.1 rfl

/-- C5 amended: `main` registers callbacks for Add and Delete only (no
Update callback); each registered callback does nothing beyond computing
the resource key and, when that succeeds, calling the queue's add with the
key; on a key-computation error it does nothing. -/
theorem mainEventHandler_add_delete_only :
    mainEventHandler.updateFunc = none ∧
    mainEventHandler.addFunc = some addFuncActions ∧
    mainEventHandler.deleteFunc = some deleteFuncActions ∧
    (∀ k, addFuncActions (Except.ok k) = [QueueValue.str k] ∧
      deleteFuncActions (Except.ok k) = [QueueValue.str k]) ∧
    (∀ msg, addFuncActions (Except.error msg) = [] ∧
      deleteFuncActions (Except.error msg) = []) :=
  ⟨rfl, rfl, rfl, fun _ => ⟨rfl, rfl⟩, fun _ => ⟨rfl, rfl⟩⟩

/-- C6: `Run` starts the worker loop iff the cache sync succeeded; the
deferred queue shutdown runs on every path; on sync failure the error is
reported and the full trace is informer start, error report, shutdown —
never a worker. -/
theorem run_sync_gate (synced : Bool) :
    (RunAction.runWorker ∈ Run synced ↔ synced = true) ∧
    RunAction.shutDownQueue ∈ Run synced ∧
    (synced = false →
      RunAction.handleError "Timed out waiting for caches to sync" ∈ Run synced ∧
      Run synced = [RunAction.logInfo "Starting custom controller",
        RunAction.startInformer,
        RunAction.handleError "Timed out waiting for caches to sync",
        RunAction.shutDownQueue]) := by
  cases synced <;> decide

/-- C6 witness: the failed-sync trace reports the error, shuts down, and
contains no worker start. -/
theorem run_sync_gate_witness :
    RunAction.handleError "Timed out waiting for caches to sync" ∈ Run false ∧
    Run false = [RunAction.logInfo "Starting custom controller",
      RunAction.startInformer,
      RunAction.handleError "Timed out waiting for caches to sync",
      RunAction.shutDownQueue] :=
  (run_sync_gate false).2.2 rfl

/-- C7: a Delete event whose key is absent from the store at dequeue time
(nil object, no lookup error) is not an error: metadata degrades to the
zero value and `processItem` still emits the Deleted alert built from the
resolved key alone, returning success. -/
theorem processItem_delete_missing (sst : Time) (ev0 : event)
    (h : ev0.eventType = "delete") :
    getObjectMetaData none = zeroObjectMeta ∧
    processItem sst none none ev0 =
      Except.ok (some
        { Name := (resolveEvent ev0).key
          Namespace := (resolveEvent ev0).namespace_
          Kind := ev0.resourceType
          Status := "Danger"
          Reason := "Deleted", Component := "", Host := "" }) := by
  have he : (resolveEvent ev0).eventType = "delete" := by
    rw [resolveEvent_eventType, h]
  exact ⟨rfl, by simp [processItem, he, resolveEvent_resourceType]⟩

/-- C7 witness: deleting the absent key ns/x emits the Deleted alert for
name x in namespace ns and succeeds. -/
theorem processItem_delete_missing_witness :
    getObjectMetaData none = zeroObjectMeta ∧
    processItem 0 none none
      { key := "ns/x", eventType := "delete", namespace_ := "", resourceType := "pod" } =
      Except.ok (some
        { Name := "x"
          Namespace := "ns"
          Kind := "pod"
          Status := "Danger"
          Reason := "Deleted", Component := "", Host := "" }) :=
  processItem_delete_missing 0 _ rfl

/-- C8: `getObjectMetaData` is total: each of the fifteen supported kinds
yields that object's metadata, and `nil` or any unrecognized kind yields
the zero-value metadata record. -/
theorem getObjectMetaData_total :
    (∀ m, getObjectMetaData (some (KObject.Deployment m)) = m) ∧
    (∀ m, getObjectMetaData (some (KObject.ReplicationController m)) = m) ∧
    (∀ m, getObjectMetaData (some (KObject.ReplicaSet m)) = m) ∧
    (∀ m, getObjectMetaData (some (KObject.DaemonSet m)) = m) ∧
    (∀ m, getObjectMetaData (some (KObject.Service m)) = m) ∧
    (∀ m, getObjectMetaData (some (KObject.Pod m)) = m) ∧
    (∀ m, getObjectMetaData (some (KObject.Job m)) = m) ∧
    (∀ m, getObjectMetaData (some (KObject.PersistentVolume m)) = m) ∧
    (∀ m, getObjectMetaData (some (KObject.Namespace m)) = m) ∧
    (∀ m, getObjectMetaData (some (KObject.Secret m)) = m) ∧
    (∀ m, getObjectMetaData (some (KObject.Ingress m)) = m) ∧
    (∀ m, getObjectMetaData (some (KObject.Node m)) = m) ∧
    (∀ m, getObjectMetaData (some (KObject.ClusterRole m)) = m) ∧
    (∀ m, getObjectMetaData (some (KObject.ServiceAccount m)) = m) ∧
    (∀ m, getObjectMetaData (some (KObject.Event m)) = m) ∧
    getObjectMetaData (some KObject.Unknown) = zeroObjectMeta ∧
    getObjectMetaData none = zeroObjectMeta :=
  ⟨fun _ => rfl, fun _ => rfl, fun _ => rfl, fun _ => rfl, fun _ => rfl,
   fun _ => rfl, fun _ => rfl, fun _ => rfl, fun _ => rfl, fun _ => rfl,
   fun _ => rfl, fun _ => rfl, fun _ => rfl, fun _ => rfl, fun _ => rfl,
   rfl, rfl⟩

/-- C9: with an empty namespace field, a key containing a slash is split:
segment 0 becomes the namespace and segment 1 becomes the name (the key
field), leaving the other fields unchanged; a key without a slash leaves
the event untouched, so the key itself serves as the name and the
namespace stays empty. -/
theorem resolveEvent_key_split (e : event) (hns : e.namespace_ = "") :
    (containsSlash e.key = true →
      (resolveEvent e).namespace_ = (splitSlash e.key).getD 0 "" ∧
      (resolveEvent e).key = (splitSlash e.key).getD 1 "" ∧
      (resolveEvent e).eventType = e.eventType ∧
      (resolveEvent e).resourceType = e.resourceType) ∧
    (containsSlash e.key = false → resolveEvent e = e) := by
  constructor
  · intro hc
    unfold resolveEvent
    rw [if_pos ⟨hns, hc⟩]
    exact ⟨rfl, rfl, rfl, rfl⟩
  · intro hc
    have hn : ¬ (e.namespace_ = "" ∧ containsSlash e.key = true) := by
      rintro ⟨-, hc2⟩
      rw [hc] at hc2
      exact Bool.false_ne_true hc2
    unfold resolveEvent
    rw [if_neg hn]

/-- C9 witness: key kube-system/coredns with empty namespace yields
namespace kube-system and name coredns; key my-node stays untouched. -/
theorem resolveEvent_key_split_witness :
    ((resolveEvent { key := "kube-system/coredns", eventType := "create", namespace_ := "", resourceType := "pod" }).namespace_ = "kube-system" ∧
     (resolveEvent { key := "kube-system/coredns", eventType := "create", namespace_ := "", resourceType := "pod" }).key = "coredns") ∧
    resolveEvent { key := "my-node", eventType := "create", namespace_ := "", resourceType := "node" } =
      { key := "my-node", eventType := "create", namespace_ := "", resourceType := "node" } :=
  ⟨⟨((resolveEvent_key_split
      { key := "kube-system/coredns", eventType := "create", namespace_ := "", resourceType := "pod" } rfl).1 (by decide)).1,
    ((resolveEvent_key_split
      { key := "kube-system/coredns", eventType := "create", namespace_ := "", resourceType := "pod" } rfl).1 (by decide)).2.1⟩,
   (resolveEvent_key_split
      { key := "my-node", eventType := "create", namespace_ := "", resourceType := "node" } rfl).2 (by decide)⟩

/-- C10: every value the registered callbacks enqueue is a plain string
key, and the worker's type assertion fails on every string, so the
dequeued value panics the worker instead of being processed: the claimed
type-safety property does not hold of the code. -/
theorem mainCallback_value_fails_assertion :
    mainEventHandler.addFunc = some addFuncActions ∧
    mainEventHandler.deleteFunc = some deleteFuncActions ∧
    addFuncActions (Except.ok "default/mypod") = [QueueValue.str "default/mypod"] ∧
    (∀ k, assertEvent (QueueValue.str k) = none) ∧
    (processNextItem false (QueueValue.str "default/mypod") none none 0 0).panicked = true :=
  ⟨rfl, rfl, rfl, fun _ => rfl, rfl⟩

end K8s
